import Mathlib

/-!
Verification of the AzureML model-monitoring scoring handler
(`deployment/src/score.py`).

The script has two functions:

* `init()` reads the environment variable `AZUREML_MODEL_DIR`, loads an
  mlflow/sklearn model from `<base>/model` and creates three
  `azureml.ai.monitoring.Collector` telemetry emitters, storing all four
  as Python globals.
* `run(raw_data)` parses the JSON request body, extracts its `data` field,
  materialises it as a `pandas.DataFrame`, emits the input table, invokes
  the model, appends a `Predicted_Temperature` column in place, emits the
  prediction projection and the combined table (correlated by the context
  returned from the first emission), and returns the predictions as a list.

The embedding below models JSON documents, the pandas operations the script
uses, the mutable Python globals, an explicit heap of DataFrame objects (so
that the in-place column assignment and the aliasing of `output_df` and
`input_df` are visible), and the collector interface of the external
monitoring library.  Numeric values are rationals: every numeral in the
claims (1.0, 2.0, 3.0, 7.0) is exactly representable.
-/

/-- A parsed JSON document, as produced by `json.loads`. -/
inductive Json where
  | null
  | bool (b : Bool)
  | num (q : ℚ)
  | str (s : String)
  | arr (elts : List Json)
  | obj (fields : List (String × Json))

/-- A DataFrame cell: `none` models pandas `NaN` (a key missing from a row
dict), `some v` a value taken from the JSON payload. -/
abbrev Cell := Option Json

/-- A `pandas.DataFrame`: named columns in order, and rows of cells aligned
with the column list. -/
structure DataFrame where
  columns : List String
  rows : List (List Cell)
deriving Inhabited

/-- Number of rows, `len(df.index)`. -/
def DataFrame.nrows (df : DataFrame) : Nat := df.rows.length

/-- `df[c] = vals`: pandas column assignment.  If the column exists its
values are replaced in place (position kept); otherwise the column is
appended after the existing columns.  The caller checks the length of
`vals` against `df.nrows` first, as pandas does. -/
def DataFrame.setCol (df : DataFrame) (name : String) (vals : List Cell) : DataFrame :=
  if name ∈ df.columns then
    ⟨df.columns, (df.rows.zip vals).map fun rv => rv.1.set (df.columns.indexOf name) rv.2⟩
  else
    ⟨df.columns ++ [name], (df.rows.zip vals).map fun rv => rv.1 ++ [rv.2]⟩

/-- `df[[c1, ..., ck]]`: pandas column projection; builds a new DataFrame
object holding only the named columns.  At its single call site in the
script the requested column always exists, so the missing-column `KeyError`
of pandas is unreachable and cells of absent columns default to `NaN`. -/
def DataFrame.select (df : DataFrame) (names : List String) : DataFrame :=
  ⟨names, df.rows.map fun r => names.map fun c => r.getD (df.columns.indexOf c) none⟩

/-- Request-level Python exceptions raised inside `run`. -/
inductive RunError where
  | keyError
  | typeError
  | valueError
  | lengthMismatch
  | nameError
deriving DecidableEq

/-- `json_data["data"]`: dict subscription.  A missing key raises
`KeyError`; subscripting a non-dict JSON value with a string raises
`TypeError`. -/
def Json.getItem (j : Json) (key : String) : Except RunError Json :=
  match j with
  | .obj fields =>
    match fields.lookup key with
    | some v => .ok v
    | none => .error .keyError
  | _ => .error .typeError

/-- First-appearance order of the keys of a list of row dicts: the column
order `pandas.DataFrame` gives a list of records. -/
def rowKeys (rows : List (List (String × Json))) : List String :=
  rows.foldl (fun acc r => r.foldl (fun acc2 kv => if kv.1 ∈ acc2 then acc2 else acc2 ++ [kv.1]) acc) []

/-- Row-oriented constructor: a list of record dicts becomes a table whose
columns are the keys in first-appearance order; a key missing from a row
yields `NaN` in that cell, as in pandas. -/
def buildRowTable (rows : List (List (String × Json))) : DataFrame :=
  ⟨rowKeys rows, rows.map fun r => (rowKeys rows).map fun c => r.lookup c⟩

/-- Column-oriented constructor: a dict of equal-length arrays.  pandas
raises `ValueError` when the arrays have unequal lengths. -/
def buildColTable (fields : List (String × List Json)) : Except RunError DataFrame :=
  match fields with
  | [] => .ok ⟨[], []⟩
  | f0 :: _ =>
    if fields.all fun f => f.2.length = f0.2.length then
      .ok ⟨fields.map fun f => f.1,
           (List.range f0.2.length).map fun i => fields.map fun f => f.2.get? i⟩
    else .error .valueError

/-- `pandas.DataFrame(scoring_data)` on the argument shapes the wire format
admits: a list of record dicts (row-oriented), a dict of equal-length
arrays (column-oriented), or `null` (`pd.DataFrame(None)` is the empty
frame).  A scalar argument — e.g. the string `"not-a-table"` — raises
`ValueError` (`DataFrame constructor not properly called!`), as does a
list whose elements are not all dicts. -/
def pd_DataFrame (j : Json) : Except RunError DataFrame :=
  match j with
  | .null => .ok ⟨[], []⟩
  | .arr elts =>
    match elts.mapM (fun e => match e with | .obj f => some f | _ => none) with
    | some rows => .ok (buildRowTable rows)
    | none => .error .valueError
  | .obj fields =>
    match fields.mapM (fun kv => match kv.2 with | .arr l => some (kv.1, l) | _ => none) with
    | some cols => buildColTable cols
    | none => .error .valueError
  | _ => .error .valueError

/-- The parsing pipeline of `run` (lines 24–28): extract the `data` field
and materialise it as a DataFrame.  (`json.loads` itself is the external
text-level decoder; requests enter the embedding as parsed documents.) -/
def parseRequest (raw_data : Json) : Except RunError DataFrame :=
  (raw_data.getItem "data").bind pd_DataFrame

/-- A model handle, as returned by `mlflow.sklearn.load_model`: its
`predict` maps a feature table to a sequence of numeric predictions. -/
def Model := DataFrame → List ℚ

/-- A telemetry emitter of the external `azureml.ai.monitoring` library;
it is identified by its channel name. -/
structure Collector where
  name : String
deriving DecidableEq

/-- The Python globals the script populates in `init` and reads in `run`;
`none` models a name `init` has not (yet) assigned, whose use raises
`NameError`. -/
structure Globals where
  model : Option Model
  inputs_collector : Option Collector
  outputs_collector : Option Collector
  inputs_outputs_collector : Option Collector

/-- The globals of a process in which `init` has never run. -/
def emptyGlobals : Globals := ⟨none, none, none, none⟩

/-- The globals a successful `init` produces: the loaded model and the
three fixed-name collectors. -/
def standardGlobals (m : Model) : Globals :=
  ⟨some m, some ⟨"model_inputs"⟩, some ⟨"model_outputs"⟩, some ⟨"model_inputs_outputs"⟩⟩

/-- Fatal startup exceptions raised inside `init`. -/
inductive InitError where
  | typeErrorNonePath
  | artifactMissing
  | artifactIncompatible
deriving DecidableEq

/-- What the filesystem holds at a path: a loadable model artifact, or
bytes `mlflow.sklearn.load_model` cannot deserialize. -/
inductive Artifact where
  | valid (m : Model)
  | corrupt

/-- The deployment filesystem, mapping paths to artifacts. -/
def FileSystem := String → Option Artifact

/-- The process environment, `os.getenv`. -/
def Env := String → Option String

/-- `os.path.join(base, "model")` for the relative second component the
script uses. -/
def os_path_join (a b : String) : String :=
  if a = "" then b
  else if a.endsWith "/" then a ++ b
  else a ++ "/" ++ b

/-- `mlflow.sklearn.load_model(path)`: raises if the path does not exist
or the artifact there is not a compatible serialized model. -/
def mlflow_sklearn_load_model (fs : FileSystem) (path : String) : Except InitError Model :=
  match fs path with
  | none => .error .artifactMissing
  | some .corrupt => .error .artifactIncompatible
  | some (.valid m) => .ok m

/-- `init()` (lines 10–21).  Python mutates the globals step by step, so
the embedding returns the exit status together with the globals as they
stand when `init` returns or raises: `os.path.join(None, "model")` raises
`TypeError` when `AZUREML_MODEL_DIR` is unset; a failed model load raises
before any collector has been created; on success the model is assigned
first and then the three collectors in order. -/
def init (env : Env) (fs : FileSystem) (g : Globals) : Except InitError Unit × Globals :=
  match env "AZUREML_MODEL_DIR" with
  | none => (.error .typeErrorNonePath, g)
  | some base =>
    match mlflow_sklearn_load_model fs (os_path_join base "model") with
    | .error e => (.error e, g)
    | .ok m =>
      (.ok (), { g with
        model := some m
        inputs_collector := some ⟨"model_inputs"⟩
        outputs_collector := some ⟨"model_outputs"⟩
        inputs_outputs_collector := some ⟨"model_inputs_outputs"⟩ })

/-- The request-local heap of DataFrame objects: addresses are allocation
indices.  It makes object identity observable, so that the in-place column
assignment through the alias `output_df = input_df` is faithful. -/
structure Heap where
  cells : List DataFrame

/-- Allocate a fresh DataFrame object, returning its address. -/
def Heap.alloc (h : Heap) (df : DataFrame) : Nat × Heap :=
  (h.cells.length, ⟨h.cells ++ [df]⟩)

/-- Read the object at an address. -/
def Heap.get (h : Heap) (a : Nat) : DataFrame :=
  h.cells.getD a ⟨[], []⟩

/-- Overwrite the object at an address (in-place mutation). -/
def Heap.set (h : Heap) (a : Nat) (df : DataFrame) : Heap :=
  ⟨h.cells.set a df⟩

/-- The correlation-context supply of the monitoring platform.  Modelled
from the spec: the `azureml.ai.monitoring` collectors are an external
collaborator whose `collect` returns a fresh opaque correlation context
when called without one; freshness is modelled by a counter. -/
structure TelemetryState where
  nextCtx : Nat

/-- One telemetry emission as observed by the platform: the channel it was
sent on, the address of the table object passed, the value that object
held at the moment of the call, the context argument (if any) and the
context the call returned. -/
structure Emission where
  channel : String
  addr : Nat
  snapshot : DataFrame
  ctxArg : Option Nat
  ctxRet : Nat
deriving Inhabited

/-- `collector.collect(table)` / `collector.collect(table, context)`.
Called without a context it draws a fresh one from the platform; called
with one it correlates the record to it.  Returns the context together
with the platform state and the emission record. -/
def Collector.collect (c : Collector) (a : Nat) (h : Heap) (ctx : Option Nat)
    (tel : TelemetryState) : Nat × TelemetryState × Emission :=
  match ctx with
  | none => (tel.nextCtx, ⟨tel.nextCtx + 1⟩, ⟨c.name, a, h.get a, none, tel.nextCtx⟩)
  | some t => (t, tel, ⟨c.name, a, h.get a, some t, t⟩)

/-- Everything one call of `run` produces: its return value or exception,
the telemetry emissions it performed in order, the platform state it
leaves, and the final request-local heap. -/
structure RunOutcome where
  result : Except RunError (List ℚ)
  emissions : List Emission
  tel : TelemetryState
  heap : Heap

/-- The body of `run` after parsing (lines 30–48), starting from the
freshly materialised `input_df`.  Reading an unassigned global raises
`NameError` at its first use.  `output_df = input_df` binds an alias, so
the column assignment mutates the very object already emitted on the
inputs channel; `output_df[["Predicted_Temperature"]]` builds a fresh
projection object; `list(predictions)` is the returned value. -/
def runTable (g : Globals) (df : DataFrame) (tel : TelemetryState) : RunOutcome :=
  let a := Heap.alloc ⟨[]⟩ df
  let input_df := a.1
  let h0 := a.2
  match g.inputs_collector with
  | none => ⟨.error .nameError, [], tel, h0⟩
  | some inputs_collector =>
    let c1 := inputs_collector.collect input_df h0 none tel
    let context := c1.1
    let tel1 := c1.2.1
    let e1 := c1.2.2
    match g.model with
    | none => ⟨.error .nameError, [e1], tel1, h0⟩
    | some model =>
      let predictions := model (h0.get input_df)
      let output_df := input_df
      if predictions.length = (h0.get output_df).nrows then
        let h1 := h0.set output_df
          ((h0.get output_df).setCol "Predicted_Temperature" (predictions.map fun q => some (.num q)))
        match g.outputs_collector with
        | none => ⟨.error .nameError, [e1], tel1, h1⟩
        | some outputs_collector =>
          let p := h1.alloc ((h1.get output_df).select ["Predicted_Temperature"])
          let proj := p.1
          let h2 := p.2
          let c2 := outputs_collector.collect proj h2 (some context) tel1
          let tel2 := c2.2.1
          let e2 := c2.2.2
          match g.inputs_outputs_collector with
          | none => ⟨.error .nameError, [e1, e2], tel2, h2⟩
          | some inputs_outputs_collector =>
            let c3 := inputs_outputs_collector.collect output_df h2 (some context) tel2
            ⟨.ok predictions, [e1, e2, c3.2.2], c3.2.1, h2⟩
      else ⟨.error .lengthMismatch, [e1], tel1, h0⟩

/-- `run(raw_data)` (lines 23–48): parse the document's `data` field into
a table, then score it.  A parse failure raises out of `run` before any
global is read and before any telemetry emission. -/
def run (g : Globals) (raw_data : Json) (tel : TelemetryState) : RunOutcome :=
  match raw_data.getItem "data" with
  | .error e => ⟨.error e, [], tel, ⟨[]⟩⟩
  | .ok scoring_data =>
    match pd_DataFrame scoring_data with
    | .error e => ⟨.error e, [], tel, ⟨[]⟩⟩
    | .ok input_df => runTable g input_df tel

/-! ### Concrete requests and models used by the claims -/

/-- The parsed form of the request body
`{"data": [{"feature_a": 1.0, "feature_b": 2.0}, {"feature_a": 3.0, "feature_b": 4.0}]}`. -/
def jsonC2 : Json :=
  .obj [("data", .arr
    [.obj [("feature_a", .num 1), ("feature_b", .num 2)],
     .obj [("feature_a", .num 3), ("feature_b", .num 4)]])]

/-- The feature table `jsonC2` materialises to. -/
def tblC2 : DataFrame :=
  ⟨["feature_a", "feature_b"],
   [[some (.num 1), some (.num 2)], [some (.num 3), some (.num 4)]]⟩

/-- A model predicting `feature_a + feature_b` for every row. -/
def sumModel : Model := fun df =>
  df.rows.map fun r =>
    (match r.getD (df.columns.indexOf "feature_a") none with
     | some (.num q) => q
     | _ => 0) +
    (match r.getD (df.columns.indexOf "feature_b") none with
     | some (.num q) => q
     | _ => 0)

/-- A model predicting the constant 5 for every row. -/
def constModel : Model := fun df => df.rows.map fun _ => 5

/-- The parsed form of the malformed request `{"data": "not-a-table"}`. -/
def jsonBad : Json := .obj [("data", .str "not-a-table")]

/-- A parsed request with no `data` field at all. -/
def jsonNoData : Json := .obj [("other", .null)]

/-- A well-formed request whose single feature column is already named
`Predicted_Temperature`. -/
def jsonPT : Json := .obj [("data", .arr [.obj [("Predicted_Temperature", .num 1)]])]

/-- The feature table `jsonPT` materialises to. -/
def tblPT : DataFrame := ⟨["Predicted_Temperature"], [[some (.num 1)]]⟩

example : parseRequest jsonC2 = .ok tblC2 := rfl
example : parseRequest jsonBad = .error .valueError := rfl
example : parseRequest jsonNoData = .error .keyError := rfl
example : parseRequest jsonPT = .ok tblPT := rfl
example : sumModel tblC2 = [3, 7] := by
  simp [sumModel, tblC2, List.indexOf, List.findIdx, List.findIdx.go]
  norm_num

/-! ### Structural lemmas about `run` -/

/-- When the parsing pipeline succeeds, `run` is its scoring body on the
materialised table. -/
theorem run_parse_ok (g : Globals) (raw : Json) (df : DataFrame) (tel : TelemetryState)
    (h : parseRequest raw = .ok df) : run g raw tel = runTable g df tel := by
  unfold run
  unfold parseRequest at h
  cases hg : raw.getItem "data" with
  | error e =>
    rw [hg] at h
    exact absurd h (by simp [Except.bind])
  | ok sd =>
    rw [hg] at h
    replace h : pd_DataFrame sd = .ok df := h
    dsimp only
    rw [h]

/-- When the parsing pipeline fails, `run` raises that error at once:
no telemetry emission, telemetry state untouched, nothing allocated. -/
theorem run_parse_error (g : Globals) (raw : Json) (e : RunError) (tel : TelemetryState)
    (h : parseRequest raw = .error e) : run g raw tel = ⟨.error e, [], tel, ⟨[]⟩⟩ := by
  unfold run
  unfold parseRequest at h
  cases hg : raw.getItem "data" with
  | error e' =>
    rw [hg] at h
    replace h : Except.error (α := DataFrame) e' = .error e := h
    cases h
    rfl
  | ok sd =>
    rw [hg] at h
    replace h : pd_DataFrame sd = .error e := h
    dsimp only
    rw [h]

/-- The prediction column written by `run`, as cells. -/
def predCells (m : Model) (df : DataFrame) : List Cell :=
  (m df).map fun q => some (.num q)

/-- The combined output table `run` builds: the feature table with the
`Predicted_Temperature` column assigned. -/
def outTable (m : Model) (df : DataFrame) : DataFrame :=
  df.setCol "Predicted_Temperature" (predCells m df)

/-- Full evaluation of the scoring body on initialised globals, when the
model yields one prediction per row: the three emissions in order, the
context chaining, the aliasing of the first and third emitted object, the
final heap, and the returned predictions. -/
theorem runTable_std (m : Model) (df : DataFrame) (tel : TelemetryState)
    (h : (m df).length = df.nrows) :
    runTable (standardGlobals m) df tel =
      ⟨.ok (m df),
       [⟨"model_inputs", 0, df, none, tel.nextCtx⟩,
        ⟨"model_outputs", 1, (outTable m df).select ["Predicted_Temperature"],
          some tel.nextCtx, tel.nextCtx⟩,
        ⟨"model_inputs_outputs", 0, outTable m df, some tel.nextCtx, tel.nextCtx⟩],
       ⟨tel.nextCtx + 1⟩,
       ⟨[outTable m df, (outTable m df).select ["Predicted_Temperature"]]⟩⟩ := by
  simp [runTable, standardGlobals, Collector.collect, Heap.alloc, Heap.get, Heap.set,
    outTable, predCells, h]

/-- The result of `runTable` does not depend on the telemetry-context
state: predictions are computed from the table and the model alone. -/
theorem runTable_result_tel_indep (g : Globals) (df : DataFrame) (tel tel' : TelemetryState) :
    (runTable g df tel).result = (runTable g df tel').result := by
  obtain ⟨mo, ic, oc, ioc⟩ := g
  cases ic <;> cases mo <;> cases oc <;> cases ioc <;>
    simp [runTable, Collector.collect, Heap.alloc, Heap.get, Heap.set] <;>
    split <;> rfl

/-- The result of `run` does not depend on the telemetry-context state. -/
theorem run_result_tel_indep (g : Globals) (raw : Json) (tel tel' : TelemetryState) :
    (run g raw tel).result = (run g raw tel').result := by
  unfold run
  cases raw.getItem "data" with
  | error e => rfl
  | ok sd =>
    dsimp only
    cases pd_DataFrame sd with
    | error e => rfl
    | ok df => exact runTable_result_tel_indep g df tel tel'

/-- A request served against uninitialised globals never returns
predictions: either parsing fails or the first collector access raises
`NameError`. -/
theorem run_uninitialized_never_ok (raw : Json) (tel : TelemetryState) (out : List ℚ) :
    (run emptyGlobals raw tel).result ≠ .ok out := by
  unfold run
  cases raw.getItem "data" with
  | error e => simp
  | ok sd =>
    dsimp only
    cases pd_DataFrame sd with
    | error e => simp
    | ok df => simp [runTable, emptyGlobals]

/-! ### The claims -/

/-- Claim C1: for every well-formed request (a JSON object whose `data`
field parses into a feature table of `n` rows), if the model's predict
operation returns one numeric prediction per input row, then `run` returns
the prediction list itself: its length is `n` and its `i`-th element is the
model's prediction for the `i`-th input row, in input row order. -/
theorem run_returns_one_prediction_per_row (m : Model) (raw : Json) (tbl : DataFrame)
    (tel : TelemetryState)
    (hp : parseRequest raw = .ok tbl)
    (hm : (m tbl).length = tbl.nrows) :
    (run (standardGlobals m) raw tel).result = .ok (m tbl) ∧
    (m tbl).length = tbl.nrows ∧
    (∀ i, i < tbl.nrows → (m tbl).get? i = some ((m tbl).getD i 0)) := by
  rw [run_parse_ok _ _ _ _ hp, runTable_std m tbl tel hm]
  refine ⟨rfl, hm, fun i hi => ?_⟩
  have hlt : i < (m tbl).length := hm ▸ hi
  simp [List.getD, List.get?_eq_getElem? , List.getElem?_eq_getElem hlt]

/-- Claim C1 witness: the two-row request `jsonC2` against the
`feature_a + feature_b` model. -/
theorem run_returns_one_prediction_per_row_witness :
    parseRequest jsonC2 = .ok tblC2 ∧
    (sumModel tblC2).length = tblC2.nrows ∧
    ((run (standardGlobals sumModel) jsonC2 ⟨0⟩).result = .ok (sumModel tblC2) ∧
     (sumModel tblC2).length = tblC2.nrows ∧
     (∀ i, i < tblC2.nrows → (sumModel tblC2).get? i = some ((sumModel tblC2).getD i 0))) :=
  ⟨rfl, rfl, run_returns_one_prediction_per_row sumModel jsonC2 tblC2 ⟨0⟩ rfl rfl⟩

/-- Claim C2: the concrete request
`{"data": [{"feature_a": 1.0, "feature_b": 2.0}, {"feature_a": 3.0, "feature_b": 4.0}]}`
scored with a model that predicts `feature_a + feature_b` for every row
returns exactly `[3.0, 7.0]`. -/
theorem run_concrete_sum_scenario :
    (run (standardGlobals sumModel) jsonC2 ⟨0⟩).result = .ok [3, 7] := by
  rw [run_parse_ok (standardGlobals sumModel) jsonC2 tblC2 ⟨0⟩ rfl, runTable_std sumModel tblC2 ⟨0⟩ rfl]
  simp [sumModel, tblC2, List.indexOf, List.findIdx, List.findIdx.go]
  norm_num

/-- Claim C8: for a fixed model handle and a fixed raw request body, two
invocations of `run` return identical prediction lists, whatever telemetry
state each invocation runs in. -/
theorem run_deterministic (m : Model) (raw : Json) (tel tel' : TelemetryState) :
    (run (standardGlobals m) raw tel).result = (run (standardGlobals m) raw tel').result :=
  run_result_tel_indep (standardGlobals m) raw tel tel'

/-- Claim C4: a request whose `data` field is malformed (or missing) makes
`run` raise a request-level error before any telemetry emission; the
telemetry state is left untouched and — since `run` never writes the
process-wide globals — a subsequent request behaves exactly as if the
failed request had never happened. -/
theorem run_malformed_request_isolated (g : Globals) (raw : Json) (e : RunError)
    (tel : TelemetryState)
    (h : parseRequest raw = .error e) :
    (run g raw tel).result = .error e ∧
    (run g raw tel).emissions = [] ∧
    (run g raw tel).tel = tel ∧
    (∀ raw2 : Json, run g raw2 (run g raw tel).tel = run g raw2 tel) := by
  rw [run_parse_error g raw e tel h]
  exact ⟨rfl, rfl, rfl, fun raw2 => rfl⟩

/-- Claim C4 witness: the malformed request `{"data": "not-a-table"}`
against a fully initialised process; the follow-up request `jsonC2` is
unaffected. -/
theorem run_malformed_request_isolated_witness :
    parseRequest jsonBad = .error RunError.valueError ∧
    (run (standardGlobals sumModel) jsonBad ⟨0⟩).result = .error RunError.valueError ∧
    (run (standardGlobals sumModel) jsonBad ⟨0⟩).emissions = [] ∧
    (run (standardGlobals sumModel) jsonBad ⟨0⟩).tel = ⟨0⟩ ∧
    run (standardGlobals sumModel) jsonC2 (run (standardGlobals sumModel) jsonBad ⟨0⟩).tel =
      run (standardGlobals sumModel) jsonC2 ⟨0⟩ :=
  ⟨rfl,
   (run_malformed_request_isolated (standardGlobals sumModel) jsonBad .valueError ⟨0⟩ rfl).1,
   (run_malformed_request_isolated (standardGlobals sumModel) jsonBad .valueError ⟨0⟩ rfl).2.1,
   (run_malformed_request_isolated (standardGlobals sumModel) jsonBad .valueError ⟨0⟩ rfl).2.2.1,
   (run_malformed_request_isolated (standardGlobals sumModel) jsonBad .valueError ⟨0⟩ rfl).2.2.2 jsonC2⟩

/-- Claim C5: a well-formed request performs exactly three telemetry
emissions, on the inputs, outputs and combined channels in that order; the
context returned by the first emission is passed unmodified to both
subsequent emissions; and a second request served afterwards draws a
distinct context. -/
theorem telemetry_emission_protocol (m : Model) (raw raw2 : Json) (tbl tbl2 : DataFrame)
    (tel : TelemetryState)
    (hp : parseRequest raw = .ok tbl) (hm : (m tbl).length = tbl.nrows)
    (hp2 : parseRequest raw2 = .ok tbl2) (hm2 : (m tbl2).length = tbl2.nrows) :
    (run (standardGlobals m) raw tel).emissions.map Emission.channel =
      ["model_inputs", "model_outputs", "model_inputs_outputs"] ∧
    (run (standardGlobals m) raw tel).emissions.map Emission.ctxArg =
      [none, some tel.nextCtx, some tel.nextCtx] ∧
    (run (standardGlobals m) raw tel).emissions.map Emission.ctxRet =
      [tel.nextCtx, tel.nextCtx, tel.nextCtx] ∧
    (run (standardGlobals m) raw2 (run (standardGlobals m) raw tel).tel).emissions.map
        Emission.ctxRet = [tel.nextCtx + 1, tel.nextCtx + 1, tel.nextCtx + 1] ∧
    tel.nextCtx + 1 ≠ tel.nextCtx := by
  rw [run_parse_ok (standardGlobals m) raw tbl tel hp, runTable_std m tbl tel hm]
  refine ⟨rfl, rfl, rfl, ?_, by omega⟩
  rw [show (⟨.ok (m tbl), _, ⟨tel.nextCtx + 1⟩, _⟩ : RunOutcome).tel = ⟨tel.nextCtx + 1⟩ from rfl]
  rw [run_parse_ok (standardGlobals m) raw2 tbl2 ⟨tel.nextCtx + 1⟩ hp2,
    runTable_std m tbl2 ⟨tel.nextCtx + 1⟩ hm2]
  rfl

/-- Claim C5 witness: the request `jsonC2` served twice in a row against
the `feature_a + feature_b` model. -/
theorem telemetry_emission_protocol_witness :
    parseRequest jsonC2 = .ok tblC2 ∧
    (sumModel tblC2).length = tblC2.nrows ∧
    ((run (standardGlobals sumModel) jsonC2 ⟨0⟩).emissions.map Emission.channel =
       ["model_inputs", "model_outputs", "model_inputs_outputs"] ∧
     (run (standardGlobals sumModel) jsonC2 ⟨0⟩).emissions.map Emission.ctxArg =
       [none, some 0, some 0] ∧
     (run (standardGlobals sumModel) jsonC2 ⟨0⟩).emissions.map Emission.ctxRet = [0, 0, 0] ∧
     (run (standardGlobals sumModel) jsonC2
          (run (standardGlobals sumModel) jsonC2 ⟨0⟩).tel).emissions.map Emission.ctxRet =
       [1, 1, 1] ∧
     0 + 1 ≠ 0) :=
  ⟨rfl, rfl,
   telemetry_emission_protocol sumModel jsonC2 jsonC2 tblC2 tblC2 ⟨0⟩ rfl rfl rfl rfl⟩

/-- Column assignment for a fresh name appends the column after the
existing ones and extends every row with its value. -/
theorem setCol_not_mem (df : DataFrame) (name : String) (vals : List Cell)
    (h : name ∉ df.columns) :
    df.setCol name vals =
      ⟨df.columns ++ [name], (df.rows.zip vals).map fun rv => rv.1 ++ [rv.2]⟩ := by
  simp [DataFrame.setCol, h]

/-- Claim C3 is false as stated: on the well-formed request `jsonPT`, whose
feature table already has a column named `Predicted_Temperature`, the
assignment overwrites that column in place, so the table passed to the
combined emitter has exactly the input columns and no additional one. -/
theorem combined_table_extra_column_cex :
    parseRequest jsonPT = .ok tblPT ∧
    (run (standardGlobals constModel) jsonPT ⟨0⟩).result = .ok [5] ∧
    ((run (standardGlobals constModel) jsonPT ⟨0⟩).emissions.getD 2 default).channel =
      "model_inputs_outputs" ∧
    ((run (standardGlobals constModel) jsonPT ⟨0⟩).emissions.getD 2 default).snapshot.columns =
      ["Predicted_Temperature"] ∧
    ((run (standardGlobals constModel) jsonPT ⟨0⟩).emissions.getD 2 default).snapshot.columns ≠
      tblPT.columns ++ ["Predicted_Temperature"] := by
  rw [run_parse_ok (standardGlobals constModel) jsonPT tblPT ⟨0⟩ rfl,
    runTable_std constModel tblPT ⟨0⟩ rfl]
  refine ⟨rfl, rfl, rfl, ?_, ?_⟩ <;>
    simp [outTable, predCells, constModel, tblPT, DataFrame.setCol, List.indexOf,
      List.findIdx, List.findIdx.go]

/-- Claim C3 (amended): for every well-formed request whose feature table
does not already contain a column named `Predicted_Temperature`, the table
passed to the combined emitter is the feature table with the prediction
column appended after the input columns: its columns are exactly the input
columns plus `Predicted_Temperature`, and each row is the input row
extended with the row's prediction. -/
theorem combined_table_extra_column (m : Model) (raw : Json) (tbl : DataFrame)
    (tel : TelemetryState)
    (hp : parseRequest raw = .ok tbl) (hm : (m tbl).length = tbl.nrows)
    (hfree : "Predicted_Temperature" ∉ tbl.columns) :
    (run (standardGlobals m) raw tel).emissions.length = 3 ∧
    ((run (standardGlobals m) raw tel).emissions.getD 2 default).channel =
      "model_inputs_outputs" ∧
    ((run (standardGlobals m) raw tel).emissions.getD 2 default).snapshot =
      tbl.setCol "Predicted_Temperature" (predCells m tbl) ∧
    ((run (standardGlobals m) raw tel).emissions.getD 2 default).snapshot.columns =
      tbl.columns ++ ["Predicted_Temperature"] ∧
    ((run (standardGlobals m) raw tel).emissions.getD 2 default).snapshot.rows =
      (tbl.rows.zip (predCells m tbl)).map fun rv => rv.1 ++ [rv.2] := by
  rw [run_parse_ok (standardGlobals m) raw tbl tel hp, runTable_std m tbl tel hm]
  refine ⟨rfl, rfl, rfl, ?_, ?_⟩ <;>
    rw [show ((⟨.ok (m tbl), [⟨"model_inputs", 0, tbl, none, tel.nextCtx⟩,
          ⟨"model_outputs", 1, (outTable m tbl).select ["Predicted_Temperature"],
            some tel.nextCtx, tel.nextCtx⟩,
          ⟨"model_inputs_outputs", 0, outTable m tbl, some tel.nextCtx, tel.nextCtx⟩],
          ⟨tel.nextCtx + 1⟩, _⟩ : RunOutcome).emissions.getD 2 default).snapshot =
        outTable m tbl from rfl,
      outTable, setCol_not_mem tbl "Predicted_Temperature" (predCells m tbl) hfree]

/-- Claim C3 witness: the request `jsonC2` against the
`feature_a + feature_b` model; its feature table has no
`Predicted_Temperature` column. -/
theorem combined_table_extra_column_witness :
    parseRequest jsonC2 = .ok tblC2 ∧
    (sumModel tblC2).length = tblC2.nrows ∧
    "Predicted_Temperature" ∉ tblC2.columns ∧
    ((run (standardGlobals sumModel) jsonC2 ⟨0⟩).emissions.length = 3 ∧
     ((run (standardGlobals sumModel) jsonC2 ⟨0⟩).emissions.getD 2 default).channel =
       "model_inputs_outputs" ∧
     ((run (standardGlobals sumModel) jsonC2 ⟨0⟩).emissions.getD 2 default).snapshot =
       tblC2.setCol "Predicted_Temperature" (predCells sumModel tblC2) ∧
     ((run (standardGlobals sumModel) jsonC2 ⟨0⟩).emissions.getD 2 default).snapshot.columns =
       tblC2.columns ++ ["Predicted_Temperature"] ∧
     ((run (standardGlobals sumModel) jsonC2 ⟨0⟩).emissions.getD 2 default).snapshot.rows =
       (tblC2.rows.zip (predCells sumModel tblC2)).map fun rv => rv.1 ++ [rv.2]) :=
  ⟨rfl, rfl, by simp [tblC2],
   combined_table_extra_column sumModel jsonC2 tblC2 ⟨0⟩ rfl rfl (by simp [tblC2])⟩

/-- Claim C9: `output_df` is an alias of `input_df`: the object emitted on
the inputs channel is the very object later mutated by the column
assignment and emitted on the combined channel.  The inputs emission sees
the pre-mutation value (the mutation happens only after that call
returns), while at the end of the request the shared object holds the
appended `Predicted_Temperature` column — so a by-reference emission
semantics would observe the prediction column on the inputs channel. -/
theorem output_df_aliases_input_df (m : Model) (raw : Json) (tbl : DataFrame)
    (tel : TelemetryState)
    (hp : parseRequest raw = .ok tbl) (hm : (m tbl).length = tbl.nrows)
    (hfree : "Predicted_Temperature" ∉ tbl.columns) :
    (run (standardGlobals m) raw tel).emissions.length = 3 ∧
    ((run (standardGlobals m) raw tel).emissions.getD 0 default).addr =
      ((run (standardGlobals m) raw tel).emissions.getD 2 default).addr ∧
    ((run (standardGlobals m) raw tel).emissions.getD 0 default).snapshot = tbl ∧
    "Predicted_Temperature" ∉
      ((run (standardGlobals m) raw tel).emissions.getD 0 default).snapshot.columns ∧
    ((run (standardGlobals m) raw tel).emissions.getD 2 default).snapshot =
      tbl.setCol "Predicted_Temperature" (predCells m tbl) ∧
    (run (standardGlobals m) raw tel).heap.get
        ((run (standardGlobals m) raw tel).emissions.getD 0 default).addr =
      ((run (standardGlobals m) raw tel).emissions.getD 2 default).snapshot ∧
    "Predicted_Temperature" ∈
      ((run (standardGlobals m) raw tel).heap.get
        ((run (standardGlobals m) raw tel).emissions.getD 0 default).addr).columns := by
  rw [run_parse_ok (standardGlobals m) raw tbl tel hp, runTable_std m tbl tel hm]
  have hcols : (outTable m tbl).columns = tbl.columns ++ ["Predicted_Temperature"] := by
    rw [outTable, setCol_not_mem tbl "Predicted_Temperature" (predCells m tbl) hfree]
  refine ⟨rfl, rfl, rfl, hfree, rfl, by simp [Heap.get], by simp [Heap.get, hcols]⟩

/-- Claim C9 witness: the request `jsonC2` against the
`feature_a + feature_b` model. -/
theorem output_df_aliases_input_df_witness :
    parseRequest jsonC2 = .ok tblC2 ∧
    (sumModel tblC2).length = tblC2.nrows ∧
    "Predicted_Temperature" ∉ tblC2.columns ∧
    ((run (standardGlobals sumModel) jsonC2 ⟨0⟩).emissions.length = 3 ∧
     ((run (standardGlobals sumModel) jsonC2 ⟨0⟩).emissions.getD 0 default).addr =
       ((run (standardGlobals sumModel) jsonC2 ⟨0⟩).emissions.getD 2 default).addr ∧
     ((run (standardGlobals sumModel) jsonC2 ⟨0⟩).emissions.getD 0 default).snapshot = tblC2 ∧
     "Predicted_Temperature" ∉
       ((run (standardGlobals sumModel) jsonC2 ⟨0⟩).emissions.getD 0 default).snapshot.columns ∧
     ((run (standardGlobals sumModel) jsonC2 ⟨0⟩).emissions.getD 2 default).snapshot =
       tblC2.setCol "Predicted_Temperature" (predCells sumModel tblC2) ∧
     (run (standardGlobals sumModel) jsonC2 ⟨0⟩).heap.get
         ((run (standardGlobals sumModel) jsonC2 ⟨0⟩).emissions.getD 0 default).addr =
       ((run (standardGlobals sumModel) jsonC2 ⟨0⟩).emissions.getD 2 default).snapshot ∧
     "Predicted_Temperature" ∈
       ((run (standardGlobals sumModel) jsonC2 ⟨0⟩).heap.get
         ((run (standardGlobals sumModel) jsonC2 ⟨0⟩).emissions.getD 0 default).addr).columns) :=
  ⟨rfl, rfl, by simp [tblC2],
   output_df_aliases_input_df sumModel jsonC2 tblC2 ⟨0⟩ rfl rfl (by simp [tblC2])⟩

/-! ### Concrete environments and filesystems used by the init claims -/

/-- A deployment environment with `AZUREML_MODEL_DIR` set. -/
def envW : Env := fun k => if k = "AZUREML_MODEL_DIR" then some "/var/azureml-app/model-dir" else none

/-- An environment with `AZUREML_MODEL_DIR` unset. -/
def envUnset : Env := fun _ => none

/-- The artifact path `init` resolves in the `envW` deployment. -/
def modelPathW : String := os_path_join "/var/azureml-app/model-dir" "model"

/-- A filesystem holding a valid model artifact at the resolved path. -/
def fsW : FileSystem := fun p =>
  if p = modelPathW then some (.valid constModel) else none

/-- An empty filesystem: the artifact path does not exist. -/
def fsMissing : FileSystem := fun _ => none

/-- Claim C6: when model loading fails (missing or incompatible artifact),
`init` raises before completing: the globals are exactly as before, so in
particular none of the three telemetry emitters has been established (the
model is loaded before any emitter is created), and no `run` call on such
a process can ever return predictions. -/
theorem init_load_failure_no_partial_state (env : Env) (fs : FileSystem) (base : String)
    (err : InitError)
    (henv : env "AZUREML_MODEL_DIR" = some base)
    (hload : mlflow_sklearn_load_model fs (os_path_join base "model") = .error err) :
    init env fs emptyGlobals = (.error err, emptyGlobals) ∧
    (init env fs emptyGlobals).2.model = none ∧
    (init env fs emptyGlobals).2.inputs_collector = none ∧
    (init env fs emptyGlobals).2.outputs_collector = none ∧
    (init env fs emptyGlobals).2.inputs_outputs_collector = none ∧
    (∀ (raw : Json) (tel : TelemetryState) (out : List ℚ),
      (run (init env fs emptyGlobals).2 raw tel).result ≠ .ok out) := by
  have h1 : init env fs emptyGlobals = (.error err, emptyGlobals) := by
    unfold init
    rw [henv]
    dsimp only
    rw [hload]
  rw [h1]
  exact ⟨rfl, rfl, rfl, rfl, rfl, fun raw tel out => run_uninitialized_never_ok raw tel out⟩

/-- Claim C6 witness: an environment pointing at an empty filesystem. -/
theorem init_load_failure_no_partial_state_witness :
    envW "AZUREML_MODEL_DIR" = some "/var/azureml-app/model-dir" ∧
    mlflow_sklearn_load_model fsMissing
        (os_path_join "/var/azureml-app/model-dir" "model") =
      .error InitError.artifactMissing ∧
    init envW fsMissing emptyGlobals = (.error InitError.artifactMissing, emptyGlobals) ∧
    (init envW fsMissing emptyGlobals).2.inputs_collector = none ∧
    (run (init envW fsMissing emptyGlobals).2 jsonC2 ⟨0⟩).result ≠ .ok [3, 7] :=
  ⟨rfl, rfl,
   (init_load_failure_no_partial_state envW fsMissing "/var/azureml-app/model-dir"
      .artifactMissing rfl rfl).1,
   (init_load_failure_no_partial_state envW fsMissing "/var/azureml-app/model-dir"
      .artifactMissing rfl rfl).2.2.1,
   (init_load_failure_no_partial_state envW fsMissing "/var/azureml-app/model-dir"
      .artifactMissing rfl rfl).2.2.2.2.2 jsonC2 ⟨0⟩ [3, 7]⟩

/-- Claim C7: a successful `init` resolves the model artifact at exactly
`<base>/model` (its outcome depends on the filesystem only through that
path), loads the model from there, and establishes exactly the three
emitters named `model_inputs`, `model_outputs` and `model_inputs_outputs`;
each subsequent well-formed request reuses those channels, with no
per-request emitter allocation. -/
theorem init_resolves_path_and_emitters (env : Env) (fs : FileSystem) (g0 : Globals)
    (base : String) (m : Model)
    (henv : env "AZUREML_MODEL_DIR" = some base)
    (hart : fs (os_path_join base "model") = some (.valid m)) :
    init env fs g0 = (.ok (), standardGlobals m) ∧
    (standardGlobals m).model = some m ∧
    (standardGlobals m).inputs_collector = some ⟨"model_inputs"⟩ ∧
    (standardGlobals m).outputs_collector = some ⟨"model_outputs"⟩ ∧
    (standardGlobals m).inputs_outputs_collector = some ⟨"model_inputs_outputs"⟩ ∧
    (∀ fs' : FileSystem, fs' (os_path_join base "model") = fs (os_path_join base "model") →
       init env fs' g0 = init env fs g0) ∧
    (∀ (raw : Json) (tbl : DataFrame) (tel : TelemetryState),
       parseRequest raw = .ok tbl → (m tbl).length = tbl.nrows →
       (run (standardGlobals m) raw tel).emissions.map Emission.channel =
         ["model_inputs", "model_outputs", "model_inputs_outputs"]) := by
  obtain ⟨g1, g2, g3, g4⟩ := g0
  refine ⟨?_, rfl, rfl, rfl, rfl, ?_, ?_⟩
  · unfold init
    rw [henv]
    dsimp only
    unfold mlflow_sklearn_load_model
    rw [hart]
    rfl
  · intro fs' hfs
    unfold init
    rw [henv]
    dsimp only
    unfold mlflow_sklearn_load_model
    rw [hfs]
  · intro raw tbl tel hp hm
    rw [run_parse_ok (standardGlobals m) raw tbl tel hp, runTable_std m tbl tel hm]
    rfl

/-- Claim C7 witness: a filesystem holding a valid artifact at the
resolved path, and the request `jsonC2` served afterwards.  The model
loaded is the constant model, whose predictions have one entry per row. -/
theorem init_resolves_path_and_emitters_witness :
    envW "AZUREML_MODEL_DIR" = some "/var/azureml-app/model-dir" ∧
    fsW (os_path_join "/var/azureml-app/model-dir" "model") = some (.valid constModel) ∧
    init envW fsW emptyGlobals = (.ok (), standardGlobals constModel) ∧
    (run (standardGlobals constModel) jsonC2 ⟨0⟩).emissions.map Emission.channel =
      ["model_inputs", "model_outputs", "model_inputs_outputs"] :=
  ⟨rfl, by simp [fsW, modelPathW],
   (init_resolves_path_and_emitters envW fsW emptyGlobals "/var/azureml-app/model-dir"
      constModel rfl (by simp [fsW, modelPathW])).1,
   (init_resolves_path_and_emitters envW fsW emptyGlobals "/var/azureml-app/model-dir"
      constModel rfl (by simp [fsW, modelPathW])).2.2.2.2.2.2 jsonC2 tblC2 ⟨0⟩ rfl rfl⟩

/-- Claim C10: if `AZUREML_MODEL_DIR` is unset, `init` raises the
`TypeError` of `os.path.join(None, "model")` before touching the
filesystem (its outcome is the same for every filesystem), before loading
any model and before registering any emitter: the globals are unchanged.
The error is distinct from the missing- or incompatible-artifact load
failures. -/
theorem init_unset_env_typeerror (env : Env) (fs : FileSystem) (g0 : Globals)
    (henv : env "AZUREML_MODEL_DIR" = none) :
    init env fs g0 = (.error .typeErrorNonePath, g0) ∧
    (∀ fs' : FileSystem, init env fs' g0 = init env fs g0) ∧
    InitError.typeErrorNonePath ≠ InitError.artifactMissing ∧
    InitError.typeErrorNonePath ≠ InitError.artifactIncompatible := by
  have h1 : ∀ fs' : FileSystem, init env fs' g0 = (.error .typeErrorNonePath, g0) := by
    intro fs'
    unfold init
    rw [henv]
  exact ⟨h1 fs, fun fs' => (h1 fs').trans (h1 fs).symm, by simp, by simp⟩

/-- Claim C10 witness: the empty environment. -/
theorem init_unset_env_typeerror_witness :
    envUnset "AZUREML_MODEL_DIR" = none ∧
    init envUnset fsW emptyGlobals = (.error InitError.typeErrorNonePath, emptyGlobals) ∧
    init envUnset fsMissing emptyGlobals = init envUnset fsW emptyGlobals :=
  ⟨rfl,
   (init_unset_env_typeerror envUnset fsW emptyGlobals rfl).1,
   (init_unset_env_typeerror envUnset fsW emptyGlobals rfl).2.1 fsMissing⟩
